import Mathlib

/-!
# Verification of the jwt-auth-manager refresh-token lifecycle and rate limiting

A shallow embedding of the TypeScript sources of `jwt-auth-manager`:

* `src/utils/helper.ts`         — `parseExpiry`, `generateDeviceHash`, `generateJti`,
                                  `createAuthContext`
* `src/core/tokenVerification.ts` — `verifyAccessToken`, `verifyRefreshToken`
                                  (typed revision; the untyped earlier revision is
                                  embedded alongside under `...Untyped` names)
* `src/core/tokenGeneration.ts` — `generateAccessToken`, `generateRefreshToken`,
                                  `generateTokenPair`; both signing calls pass the
                                  raw `accessTokenExpiry` string to `jwt.sign`,
                                  while the persisted record expiry goes through
                                  `parseExpiry(refreshTokenExpiry)`
* `src/core/securityChecks.ts`  — `checkConcurrentUsage`, `checkDeviceFingerprint`,
                                  `checkTokenExpiry`, `performSecurityChecks`
* `src/core/tokenRefresh.ts`    — `refreshTokens`
* `src/storage/memoryStorage.ts` — `createMemoryStorage` (the concrete `TokenStorage`)
* `src/security/rateLimiting/*` — option resolution, the memory rate-limit store,
                                  the pure helpers, and the decision/record
                                  functions of `rateLimitingFunctions.ts`
                                  (`checkIPSecurity`, `checkBruteForceProtection`,
                                  `checkRateLimitEntry`, `checkRateLimit`,
                                  `recordRateLimitAttempt`, `recordBruteForceAttempt`,
                                  `recordAttempt`).

Modelling conventions:

* Timestamps and durations are `Nat` milliseconds; `new Date()` / `Date.now()` become
  an explicit `now : Nat` argument.
* `async` storage code is state passing: a stateful operation takes and returns the
  store, and a fallible one returns `Except AuthError α × Store` so that mutations
  made before a `throw` survive the error, exactly as a thrown JS exception leaves
  prior `await`ed writes in place.
* A signed JWT is modelled as its payload paired with the signing secret, idealizing
  the base64 encoding as injective; SHA-256 is idealized as an injective tagging.
* `crypto.randomUUID` is modelled by a counter threaded through the store, idealizing
  UUIDs as pairwise distinct.
-/

namespace JwtAuth

/-! ## Association-list model of a JS `Map` -/

/-- JS `Map.set`: replace in place when the key is present, append otherwise. -/
def mapSet {K V : Type} [DecidableEq K] (k : K) (v : V) :
    List (K × V) → List (K × V)
  | [] => [(k, v)]
  | (k', v') :: rest =>
      if k' = k then (k, v) :: rest else (k', v') :: mapSet k v rest

/-- JS `Map.get` (with `|| null` collapsing to `none`). -/
def mapGet {K V : Type} [DecidableEq K] (k : K) : List (K × V) → Option V
  | [] => none
  | (k', v') :: rest => if k' = k then some v' else mapGet k rest

/-- JS `Map.delete`. -/
def mapDelete {K V : Type} [DecidableEq K] (k : K) :
    List (K × V) → List (K × V)
  | [] => []
  | (k', v') :: rest =>
      if k' = k then rest else (k', v') :: mapDelete k rest

theorem mapGet_mapSet {K V : Type} [DecidableEq K] (k : K) (v : V)
    (m : List (K × V)) : mapGet k (mapSet k v m) = some v := by
  induction m with
  | nil => simp [mapSet, mapGet]
  | cons head rest ih =>
      obtain ⟨k', v'⟩ := head
      by_cases h : k' = k <;> simp [mapSet, mapGet, h, ih]

theorem mapGet_mapSet_ne {K V : Type} [DecidableEq K] (k k' : K) (v : V)
    (m : List (K × V)) (h : k' ≠ k) :
    mapGet k' (mapSet k v m) = mapGet k' m := by
  have hk : ¬ k = k' := fun hh => h hh.symm
  induction m with
  | nil => simp [mapSet, mapGet, hk]
  | cons head rest ih =>
      obtain ⟨k₀, v₀⟩ := head
      by_cases h₀ : k₀ = k
      · subst h₀
        simp [mapSet, mapGet, hk]
      · simp [mapSet, mapGet, h₀, ih]

/-! ## `parseExpiry` (src/utils/helper.ts) -/

/-- The fixed unit table of `parseExpiry`: milliseconds per unit character. -/
def unitMs : Char → Option Nat
  | 's' => some 1000
  | 'm' => some (60 * 1000)
  | 'h' => some (60 * 60 * 1000)
  | 'd' => some (24 * 60 * 60 * 1000)
  | _ => none

/-- `parseInt` on a non-empty all-digit string. -/
def digitsToNat (cs : List Char) : Nat :=
  cs.foldl (fun acc c => acc * 10 + (c.toNat - 48)) 0

/-- `parseExpiry` from `src/utils/helper.ts`: the string must match
`^(\d+)([smhd])$`; on a match the digit prefix times the unit's milliseconds,
otherwise the function throws `Invalid expiry format`, rendered here as `none`. -/
def parseExpiry (expiry : String) : Option Nat :=
  let cs := expiry.toList
  match cs.getLast? with
  | none => none
  | some u =>
      let digits := cs.dropLast
      if digits ≠ [] ∧ digits.all Char.isDigit then
        (unitMs u).map fun m => digitsToNat digits * m
      else none

/-- `generateDeviceHash` from `src/utils/helper.ts`: the SHA-256 hex digest of the
fingerprint, idealized as an injective tagging (collision-free hash model). -/
def generateDeviceHash (fingerprint : String) : String :=
  "sha256:" ++ fingerprint

theorem generateDeviceHash_injective {a b : String}
    (h : generateDeviceHash a = generateDeviceHash b) : a = b := by
  have hdata : "sha256:".data ++ a.data = "sha256:".data ++ b.data := by
    have hc := congrArg String.data h
    simpa [generateDeviceHash, String.data_append] using hc
  have hab : a.data = b.data := List.append_cancel_left hdata
  cases a
  cases b
  exact congrArg String.mk hab

/-! ## Configuration and context (src/types/index.ts, src/utils/helper.ts) -/

/-- `TokenConfig`: the caller-supplied configuration, expiries optional. -/
structure TokenConfig where
  accessTokenSecret : String
  refreshTokenSecret : String
  accessTokenExpiry : Option String := none
  refreshTokenExpiry : Option String := none
deriving DecidableEq, Repr

/-- `Required<TokenConfig>`: the configuration after default resolution. -/
structure TokenConfigResolved where
  accessTokenSecret : String
  refreshTokenSecret : String
  accessTokenExpiry : String
  refreshTokenExpiry : String
deriving DecidableEq, Repr

/-- `SecurityOptions`: caller-supplied toggles, all optional. -/
structure SecurityOptions where
  enableTokenRotation : Option Bool := none
  enableConcurrentUsageDetection : Option Bool := none
  enableDeviceFingerprinting : Option Bool := none
  enableLocationTracking : Option Bool := none
  maxConcurrentTokens : Option Nat := none
deriving DecidableEq, Repr

/-- `Required<SecurityOptions>`. -/
structure SecurityOptionsResolved where
  enableTokenRotation : Bool
  enableConcurrentUsageDetection : Bool
  enableDeviceFingerprinting : Bool
  enableLocationTracking : Bool
  maxConcurrentTokens : Nat
deriving DecidableEq, Repr

/-- `AuthContext` minus the `storage` member: storage is the concrete memory store,
threaded explicitly as state rather than carried inside the context. -/
structure AuthContext where
  config : TokenConfigResolved
  securityOptions : SecurityOptionsResolved
deriving DecidableEq, Repr

/-- JS `x || dflt` on an optional string: the default also replaces the empty
(falsy) string. -/
def orDefault (x : Option String) (dflt : String) : String :=
  match x with
  | none => dflt
  | some str => if str = "" then dflt else str

/-- `createAuthContext` from `src/utils/helper.ts`: resolves defaults
(`"15m"` / `"7d"` expiries, rotation and concurrent-usage detection on,
fingerprinting and location tracking off, 5 concurrent tokens). It performs no
validation of the expiry strings and always returns a context. -/
def createAuthContext (config : TokenConfig) (securityOptions : SecurityOptions) :
    AuthContext :=
  { config :=
      { accessTokenSecret := config.accessTokenSecret
        refreshTokenSecret := config.refreshTokenSecret
        accessTokenExpiry := orDefault config.accessTokenExpiry "15m"
        refreshTokenExpiry := orDefault config.refreshTokenExpiry "7d" }
    securityOptions :=
      { enableTokenRotation := securityOptions.enableTokenRotation.getD true
        enableConcurrentUsageDetection :=
          securityOptions.enableConcurrentUsageDetection.getD true
        enableDeviceFingerprinting :=
          securityOptions.enableDeviceFingerprinting.getD false
        enableLocationTracking := securityOptions.enableLocationTracking.getD false
        maxConcurrentTokens := securityOptions.maxConcurrentTokens.getD 5 } }

/-! ## JWT model -/

/-- The decoded claims object: a single record covering both the access and the
refresh payload shape, matching the dynamic JS object. -/
structure JwtPayload where
  userId : String
  email : Option String := none
  type : String
  jti : Option String := none
  deviceHash : Option String := none
  iat : Nat
  exp : Nat
deriving DecidableEq, Repr

/-- A signed token: `jwt.sign(payload, secret)` modelled as the pair, idealizing
the signed string encoding as injective in payload and secret. -/
structure SignedJwt where
  payload : JwtPayload
  secret : String
deriving DecidableEq, Repr

/-- The error values thrown or returned across the lifecycle: one constructor
per distinct `Error` message in the sources, plus `jwtInvalidExpiresIn` for the
signing library's own rejection of a malformed `expiresIn` string. -/
inductive AuthError
  | invalidTokenType
  | invalidOrExpiredAccessToken
  | invalidOrExpiredRefreshToken
  | invalidRefreshToken
  | concurrentUsageDetected
  | deviceMismatch
  | refreshTokenExpired
  | invalidExpiryFormat (expiry : String)
  | jwtInvalidExpiresIn (expiry : String)
deriving DecidableEq, Repr

/-- `jwt.verify(token, secret)`: succeeds exactly when the signing secret matches
and the embedded expiry has not passed. -/
def jwtVerify (token : SignedJwt) (secret : String) (now : Nat) :
    Option JwtPayload :=
  if token.secret = secret ∧ now < token.payload.exp then some token.payload
  else none

/-! ## Token verification (src/core/tokenVerification.ts, typed revision) -/

/-- `verifyAccessToken`: verify under the access secret, then reject any payload
whose `type` discriminator is not `"access"`. -/
def verifyAccessToken (token : SignedJwt) (context : AuthContext) (now : Nat) :
    Except AuthError JwtPayload :=
  match jwtVerify token context.config.accessTokenSecret now with
  | none => .error .invalidOrExpiredAccessToken
  | some decoded =>
      if decoded.type ≠ "access" then .error .invalidTokenType
      else .ok decoded

/-- `verifyRefreshToken`: verify under the refresh secret, then reject any payload
whose `type` discriminator is not `"refresh"`. -/
def verifyRefreshToken (token : SignedJwt) (context : AuthContext) (now : Nat) :
    Except AuthError JwtPayload :=
  match jwtVerify token context.config.refreshTokenSecret now with
  | none => .error .invalidOrExpiredRefreshToken
  | some decoded =>
      if decoded.type ≠ "refresh" then .error .invalidTokenType
      else .ok decoded

/-- The untyped earlier revision of `verifyAccessToken`, kept in the repository:
no `type` check. -/
def verifyAccessTokenUntyped (token : SignedJwt) (context : AuthContext)
    (now : Nat) : Except AuthError JwtPayload :=
  match jwtVerify token context.config.accessTokenSecret now with
  | none => .error .invalidOrExpiredAccessToken
  | some decoded => .ok decoded

/-- The untyped earlier revision of `verifyRefreshToken`: no `type` check. -/
def verifyRefreshTokenUntyped (token : SignedJwt) (context : AuthContext)
    (now : Nat) : Except AuthError JwtPayload :=
  match jwtVerify token context.config.refreshTokenSecret now with
  | none => .error .invalidOrExpiredRefreshToken
  | some decoded => .ok decoded

/-! ## Refresh-token records and the memory storage (src/storage/memoryStorage.ts) -/

/-- `RefreshTokenData` from `src/types/index.ts`. The `token` field is the signed
refresh token itself, which is also the storage key. -/
structure RefreshTokenData where
  id : String
  userId : String
  token : SignedJwt
  deviceFingerprint : Option String := none
  ipAddress : Option String := none
  userAgent : Option String := none
  isUsed : Bool
  createdAt : Nat
  expiresAt : Nat
deriving DecidableEq, Repr

/-- The state of `createMemoryStorage`: the token map and the id counter, plus a
counter standing in for `crypto.randomUUID`'s entropy source so that `generateJti`
is a pure state transition. -/
structure MemoryStorage where
  tokens : List (SignedJwt × RefreshTokenData)
  idCounter : Nat
  uuidSeed : Nat
deriving DecidableEq, Repr

/-- `saveRefreshToken`: assign the next id, store the record keyed by its token. -/
def saveRefreshToken (data : RefreshTokenData) (s : MemoryStorage) :
    String × MemoryStorage :=
  let id := toString s.idCounter
  let tokenData := { data with id := id }
  (id, { s with tokens := mapSet data.token tokenData s.tokens
                idCounter := s.idCounter + 1 })

/-- `getRefreshToken`: lookup by token value. -/
def getRefreshToken (token : SignedJwt) (s : MemoryStorage) :
    Option RefreshTokenData :=
  mapGet token s.tokens

/-- `invalidateRefreshToken`: delete the record with that token value. -/
def invalidateRefreshToken (token : SignedJwt) (s : MemoryStorage) :
    MemoryStorage :=
  { s with tokens := mapDelete token s.tokens }

/-- `invalidateAllUserTokens`: delete every record belonging to the user. -/
def invalidateAllUserTokens (userId : String) (s : MemoryStorage) :
    MemoryStorage :=
  { s with tokens := s.tokens.filter fun p => p.2.userId ≠ userId }

/-- `markTokenAsUsed`: set `isUsed := true` on the record if present. -/
def markTokenAsUsed (token : SignedJwt) (s : MemoryStorage) : MemoryStorage :=
  match mapGet token s.tokens with
  | none => s
  | some tokenData =>
      { s with tokens := mapSet token { tokenData with isUsed := true } s.tokens }

/-- `generateJti` from `src/utils/helper.ts`: `crypto.randomUUID`, modelled by the
threaded counter. -/
def generateJti (s : MemoryStorage) : String × MemoryStorage :=
  ("uuid-" ++ toString s.uuidSeed, { s with uuidSeed := s.uuidSeed + 1 })

/-! ## Token generation (src/core/tokenGeneration.ts) -/

/-- `User` from `src/types/index.ts` (extra dynamic fields dropped). -/
structure User where
  id : String
  email : Option String := none
deriving DecidableEq, Repr

/-- `DeviceInfo` from `src/types/index.ts`. -/
structure DeviceInfo where
  fingerprint : Option String := none
  ipAddress : Option String := none
  userAgent : Option String := none
  location : Option String := none
deriving DecidableEq, Repr

/-- `TokenPair` from `src/types/index.ts`. -/
structure TokenPair where
  accessToken : SignedJwt
  refreshToken : SignedJwt
deriving DecidableEq, Repr

/-- JS truthiness of an optional string: present and non-empty. -/
def truthy : Option String → Bool
  | none => false
  | some str => decide (str ≠ "")

/-- The timespan grammar under which the signing library accepts a string
`expiresIn` (jsonwebtoken delegates to the `ms` package), modelled on the
`\d+[smhd]` fragment where it coincides with `parseExpiry`; the real library
also accepts further forms (`"2 days"`, plain digit strings) that this
development never relies on, and throws on anything it cannot parse. -/
def msParse (expiry : String) : Option Nat :=
  parseExpiry expiry

/-- `generateAccessToken` from `src/core/tokenGeneration.ts`: signs
`{userId, email, type: "access"}` under the access secret, passing the raw
`accessTokenExpiry` string straight to `jwt.sign` as `expiresIn` — the library
parses it and throws on a malformed string. -/
def generateAccessToken (user : User) (context : AuthContext) (now : Nat) :
    Except AuthError SignedJwt :=
  match msParse context.config.accessTokenExpiry with
  | none => .error (.jwtInvalidExpiresIn context.config.accessTokenExpiry)
  | some expiresIn =>
      .ok { payload := { userId := user.id, email := user.email, type := "access",
                         iat := now, exp := now + expiresIn }
            secret := context.config.accessTokenSecret }

/-- `generateRefreshToken` from `src/core/tokenGeneration.ts`: signs
`{userId, type: "refresh", jti}` (plus `deviceHash` when fingerprinting is
enabled and a truthy fingerprint is presented) under the refresh secret — but
with `expiresIn: context.config.accessTokenExpiry`, the access expiry string,
exactly as the source does. -/
def generateRefreshToken (user : User) (context : AuthContext)
    (deviceInfo : Option DeviceInfo) (jti : String) (now : Nat) :
    Except AuthError SignedJwt :=
  let fp := deviceInfo.bind DeviceInfo.fingerprint
  let deviceHash :=
    if context.securityOptions.enableDeviceFingerprinting && truthy fp then
      some (generateDeviceHash (fp.getD ""))
    else none
  match msParse context.config.accessTokenExpiry with
  | none => .error (.jwtInvalidExpiresIn context.config.accessTokenExpiry)
  | some expiresIn =>
      .ok { payload := { userId := user.id, type := "refresh", jti := some jti,
                         deviceHash := deviceHash, iat := now, exp := now + expiresIn }
            secret := context.config.refreshTokenSecret }

/-- `generateTokenPair`: generate both tokens (each signed with the raw access
expiry string, see above), persist the refresh record with `isUsed = false` and
`expiresAt = now + parseExpiry(refreshTokenExpiry)` — the one place
`parseExpiry` runs, so a malformed refresh expiry throws here after both signs
succeeded. Mutations made before a thrown error survive it. -/
def generateTokenPair (user : User) (context : AuthContext)
    (deviceInfo : Option DeviceInfo) (now : Nat) (s : MemoryStorage) :
    Except AuthError TokenPair × MemoryStorage :=
  match generateAccessToken user context now with
  | .error e => (.error e, s)
  | .ok accessToken =>
      let (jti, s₁) := generateJti s
      match generateRefreshToken user context deviceInfo jti now with
      | .error e => (.error e, s₁)
      | .ok refreshToken =>
          match parseExpiry context.config.refreshTokenExpiry with
          | none => (.error (.invalidExpiryFormat context.config.refreshTokenExpiry), s₁)
          | some refreshMs =>
              let refreshTokenData : RefreshTokenData :=
                { id := ""
                  userId := user.id
                  token := refreshToken
                  deviceFingerprint := deviceInfo.bind DeviceInfo.fingerprint
                  ipAddress := deviceInfo.bind DeviceInfo.ipAddress
                  userAgent := deviceInfo.bind DeviceInfo.userAgent
                  isUsed := false
                  createdAt := now
                  expiresAt := now + refreshMs }
              let (_, s₂) := saveRefreshToken refreshTokenData s₁
              (.ok { accessToken := accessToken, refreshToken := refreshToken }, s₂)

/-! ## Security checks (src/core/securityChecks.ts) -/

/-- `checkConcurrentUsage`: with concurrent-usage detection enabled, a record
already marked used is a replay — invalidate all of the user's tokens and throw. -/
def checkConcurrentUsage (tokenData : RefreshTokenData) (context : AuthContext)
    (s : MemoryStorage) : Except AuthError Unit × MemoryStorage :=
  if context.securityOptions.enableConcurrentUsageDetection && tokenData.isUsed then
    (.error .concurrentUsageDetected, invalidateAllUserTokens tokenData.userId s)
  else (.ok (), s)

/-- `checkDeviceFingerprint`: only when both the decoded `deviceHash` and the
presented fingerprint are truthy, recompute the hash and compare. -/
def checkDeviceFingerprint (decoded : JwtPayload)
    (deviceInfo : Option DeviceInfo) : Except AuthError Unit :=
  let fp := deviceInfo.bind DeviceInfo.fingerprint
  if truthy decoded.deviceHash && truthy fp then
    if decoded.deviceHash ≠ some (generateDeviceHash (fp.getD "")) then
      .error .deviceMismatch
    else .ok ()
  else .ok ()

/-- `checkTokenExpiry`: a record past its `expiresAt` is deleted and the refresh
fails. -/
def checkTokenExpiry (tokenData : RefreshTokenData) (now : Nat)
    (s : MemoryStorage) : Except AuthError Unit × MemoryStorage :=
  if tokenData.expiresAt < now then
    (.error .refreshTokenExpired, invalidateRefreshToken tokenData.token s)
  else (.ok (), s)

/-- `performSecurityChecks`: concurrent-usage check first, then the device
fingerprint check (only if fingerprinting is enabled), then the expiry check. -/
def performSecurityChecks (tokenData : RefreshTokenData) (decoded : JwtPayload)
    (context : AuthContext) (deviceInfo : Option DeviceInfo) (now : Nat)
    (s : MemoryStorage) : Except AuthError Unit × MemoryStorage :=
  match checkConcurrentUsage tokenData context s with
  | (.error e, s₁) => (.error e, s₁)
  | (.ok _, s₁) =>
      match (if context.securityOptions.enableDeviceFingerprinting then
               checkDeviceFingerprint decoded deviceInfo
             else .ok ()) with
      | .error e => (.error e, s₁)
      | .ok _ => checkTokenExpiry tokenData now s₁

/-! ## Token refresh (src/core/tokenRefresh.ts) -/

/-- `refreshTokens`: verify the presented refresh token, look up its record, run
the security checks, mark the old record used when rotation is enabled, then
issue a fresh pair. -/
def refreshTokens (refreshToken : SignedJwt) (context : AuthContext)
    (deviceInfo : Option DeviceInfo) (now : Nat) (s : MemoryStorage) :
    Except AuthError TokenPair × MemoryStorage :=
  match verifyRefreshToken refreshToken context now with
  | .error e => (.error e, s)
  | .ok decoded =>
      match getRefreshToken refreshToken s with
      | none => (.error .invalidRefreshToken, s)
      | some tokenData =>
          match performSecurityChecks tokenData decoded context deviceInfo now s with
          | (.error e, s₁) => (.error e, s₁)
          | (.ok _, s₁) =>
              let user : User := { id := decoded.userId }
              let s₂ := if context.securityOptions.enableTokenRotation then
                          markTokenAsUsed refreshToken s₁
                        else s₁
              generateTokenPair user context deviceInfo now s₂

/-! ## Interleaving semantics for concurrent `refreshTokens` calls

`refreshTokens` is `async`: it suspends at each `await` on the storage. The phases
below cut the function at exactly those suspension points, so an interleaved
execution of several calls corresponds to a schedule of the underlying JS
promises. Everything between two awaits runs on the call's local copies
(`decoded`, `tokenData`), exactly as in the source. -/

/-- The suspension points of one in-flight `refreshTokens` call. -/
inductive RefreshPhase
  /-- before `getRefreshToken` (verification is synchronous). -/
  | ready
  /-- record read; `performSecurityChecks` is the next awaited step and uses the
  local `tokenData` read earlier, not a re-read. -/
  | checksPending (tokenData : RefreshTokenData) (decoded : JwtPayload)
  /-- checks passed; `markTokenAsUsed` (if rotation is on) is next. -/
  | rotatePending (decoded : JwtPayload)
  /-- old record claimed; `generateTokenPair` (sign + save) is next. -/
  | issuePending (decoded : JwtPayload)
deriving DecidableEq, Repr

instance {ε α : Type} [DecidableEq ε] [DecidableEq α] :
    DecidableEq (Except ε α) := fun x y =>
  match x, y with
  | .error e₁, .error e₂ =>
      if h : e₁ = e₂ then isTrue (congrArg Except.error h)
      else isFalse fun hc => h (Except.error.inj hc)
  | .error _, .ok _ => isFalse fun hc => Except.noConfusion hc
  | .ok _, .error _ => isFalse fun hc => Except.noConfusion hc
  | .ok a₁, .ok a₂ =>
      if h : a₁ = a₂ then isTrue (congrArg Except.ok h)
      else isFalse fun hc => h (Except.ok.inj hc)

/-- A call is either still suspended at some phase or finished with a result. -/
inductive RefreshOutcome
  | running (phase : RefreshPhase)
  | finished (result : Except AuthError TokenPair)
deriving DecidableEq, Repr

/-- One storage-granularity step of an in-flight `refreshTokens` call. -/
def refreshStep (refreshToken : SignedJwt) (context : AuthContext)
    (deviceInfo : Option DeviceInfo) (now : Nat) :
    RefreshPhase → MemoryStorage → RefreshOutcome × MemoryStorage
  | .ready, s =>
      match verifyRefreshToken refreshToken context now with
      | .error e => (.finished (.error e), s)
      | .ok decoded =>
          match getRefreshToken refreshToken s with
          | none => (.finished (.error .invalidRefreshToken), s)
          | some tokenData => (.running (.checksPending tokenData decoded), s)
  | .checksPending tokenData decoded, s =>
      match performSecurityChecks tokenData decoded context deviceInfo now s with
      | (.error e, s₁) => (.finished (.error e), s₁)
      | (.ok _, s₁) => (.running (.rotatePending decoded), s₁)
  | .rotatePending decoded, s =>
      let s₁ := if context.securityOptions.enableTokenRotation then
                  markTokenAsUsed refreshToken s
                else s
      (.running (.issuePending decoded), s₁)
  | .issuePending decoded, s =>
      let (r, s₁) := generateTokenPair { id := decoded.userId } context deviceInfo now s
      (.finished r, s₁)

/-- Two concurrent `refreshTokens` calls (A and B) over a shared store. -/
structure RaceState where
  a : RefreshOutcome
  b : RefreshOutcome
  store : MemoryStorage
deriving DecidableEq, Repr

/-- Schedule one step of call A (`true`) or call B (`false`); a finished call
ignores further scheduling. Both calls present the same token, context, device
info, and clock. -/
def raceStep (refreshToken : SignedJwt) (context : AuthContext)
    (deviceInfo : Option DeviceInfo) (now : Nat) (st : RaceState) (pick : Bool) :
    RaceState :=
  if pick then
    match st.a with
    | .finished _ => st
    | .running phase =>
        let (o, s₁) := refreshStep refreshToken context deviceInfo now phase st.store
        { st with a := o, store := s₁ }
  else
    match st.b with
    | .finished _ => st
    | .running phase =>
        let (o, s₁) := refreshStep refreshToken context deviceInfo now phase st.store
        { st with b := o, store := s₁ }

/-- Run a whole schedule of interleaved steps. -/
def runRace (refreshToken : SignedJwt) (context : AuthContext)
    (deviceInfo : Option DeviceInfo) (now : Nat) (schedule : List Bool)
    (st : RaceState) : RaceState :=
  schedule.foldl (raceStep refreshToken context deviceInfo now) st

/-- Did a call finish with a fresh token pair? -/
def RefreshOutcome.isSuccess : RefreshOutcome → Bool
  | .finished (.ok _) => true
  | _ => false

/-- Sequential soundness of the step machine: a call run alone, start to finish,
computes exactly `refreshTokens`. -/
theorem runRace_alone (refreshToken : SignedJwt) (context : AuthContext)
    (deviceInfo : Option DeviceInfo) (now : Nat) (s : MemoryStorage) :
    (runRace refreshToken context deviceInfo now [true, true, true, true]
      { a := .running .ready, b := .finished (.error .invalidRefreshToken),
        store := s }).a
      = .finished (refreshTokens refreshToken context deviceInfo now s).1
    ∧ (runRace refreshToken context deviceInfo now [true, true, true, true]
        { a := .running .ready, b := .finished (.error .invalidRefreshToken),
          store := s }).store
      = (refreshTokens refreshToken context deviceInfo now s).2 := by
  unfold runRace
  simp only [List.foldl]
  unfold refreshTokens
  cases hv : verifyRefreshToken refreshToken context now with
  | error e => constructor <;> simp [raceStep, refreshStep, hv]
  | ok decoded =>
      cases hg : getRefreshToken refreshToken s with
      | none => constructor <;> simp [raceStep, refreshStep, hv, hg]
      | some tokenData =>
          cases hc : performSecurityChecks tokenData decoded context deviceInfo now s with
          | mk res s₁ =>
              cases res with
              | error e => constructor <;> simp [raceStep, refreshStep, hv, hg, hc]
              | ok u =>
                  constructor <;>
                    simp [raceStep, refreshStep, hv, hg, hc]

/-! ## Rate limiting: types and memory store
(src/types/security/rateLimiting/index.ts, memory rate-limit storage) -/

/-- `RateLimitEntry`. -/
structure RateLimitEntry where
  attempts : Nat
  firstAttempt : Nat
  lastAttempt : Nat
  blockedUntil : Option Nat := none
  successfulAttempts : Option Nat := none
  failedAttempts : Option Nat := none
deriving DecidableEq, Repr

/-- `BruteForceEntry`. -/
structure BruteForceEntry where
  userId : String
  failedAttempts : Nat
  lockedUntil : Option Nat := none
  lastFailedAttempt : Nat
deriving DecidableEq, Repr

/-- `RateLimitResult`. -/
structure RateLimitResult where
  allowed : Bool
  remaining : Nat
  resetTime : Nat
  retryAfter : Option Nat := none
  reason : Option String := none
deriving DecidableEq, Repr

/-- Resolved brute-force options (from `createRateLimitContext` defaults). -/
structure BruteForceOptions where
  enabled : Bool
  maxFailedAttempts : Nat
  lockoutDurationMs : Nat
  resetCountOnSuccess : Bool
deriving DecidableEq, Repr

/-- Resolved rate-limit options. The `keyGenerator` is the default
`rateLimit:` prefixing, the alert and progressive-delay options configure only
side effects outside this model. -/
structure RateLimitOptionsResolved where
  maxAttempts : Nat
  windowMs : Nat
  blockDurationMs : Nat
  skipSuccessfulRequests : Bool
  skipFailedRequests : Bool
  whitelist : List String
  blacklist : List String
  bruteForce : BruteForceOptions
deriving DecidableEq, Repr

/-- The state of `createMemoryRateLimitStorage`: the two maps. The `setTimeout`
TTL timers are not modelled; entries persist until explicitly cleared. -/
structure RateLimitStore where
  rateLimitEntries : List (String × RateLimitEntry)
  bruteForceEntries : List (String × BruteForceEntry)
deriving DecidableEq, Repr

/-- `getRateLimitEntry`. -/
def getRateLimitEntry (key : String) (s : RateLimitStore) : Option RateLimitEntry :=
  mapGet key s.rateLimitEntries

/-- `saveRateLimitEntry` (TTL timer not modelled). -/
def saveRateLimitEntry (key : String) (entry : RateLimitEntry)
    (s : RateLimitStore) : RateLimitStore :=
  { s with rateLimitEntries := mapSet key entry s.rateLimitEntries }

/-- `incrementAttempts`: bump an existing entry (keeping its `firstAttempt`) or
create a fresh one with `attempts = 1, firstAttempt = lastAttempt = now`. -/
def incrementAttempts (key : String) (now : Nat) (s : RateLimitStore) :
    RateLimitEntry × RateLimitStore :=
  let entry : RateLimitEntry :=
    match mapGet key s.rateLimitEntries with
    | some existing =>
        { existing with attempts := existing.attempts + 1, lastAttempt := now }
    | none => { attempts := 1, firstAttempt := now, lastAttempt := now }
  (entry, saveRateLimitEntry key entry s)

/-- `clearRateLimitEntry`. -/
def clearRateLimitEntry (key : String) (s : RateLimitStore) : RateLimitStore :=
  { s with rateLimitEntries := mapDelete key s.rateLimitEntries }

/-- `getBruteForceEntry`. -/
def getBruteForceEntry (userId : String) (s : RateLimitStore) :
    Option BruteForceEntry :=
  mapGet userId s.bruteForceEntries

/-- `saveBruteForceEntry` (TTL timer not modelled). -/
def saveBruteForceEntry (userId : String) (entry : BruteForceEntry)
    (s : RateLimitStore) : RateLimitStore :=
  { s with bruteForceEntries := mapSet userId entry s.bruteForceEntries }

/-- `incrementFailedAttempts`: bump an existing entry or create one with
`failedAttempts = 1`. -/
def incrementFailedAttempts (userId : String) (now : Nat) (s : RateLimitStore) :
    BruteForceEntry × RateLimitStore :=
  let entry : BruteForceEntry :=
    match mapGet userId s.bruteForceEntries with
    | some existing =>
        { existing with failedAttempts := existing.failedAttempts + 1,
                        lastFailedAttempt := now }
    | none => { userId := userId, failedAttempts := 1, lastFailedAttempt := now }
  (entry, saveBruteForceEntry userId entry s)

/-- `clearBruteForceEntry`. -/
def clearBruteForceEntry (userId : String) (s : RateLimitStore) : RateLimitStore :=
  { s with bruteForceEntries := mapDelete userId s.bruteForceEntries }

/-! ## Rate limiting: pure helpers (helperFunctions source file) -/

/-- `isWhitelisted`. -/
def isWhitelisted (ip : String) (whitelist : List String) : Bool :=
  whitelist.contains ip

/-- `isBlacklisted`. -/
def isBlacklisted (ip : String) (blacklist : List String) : Bool :=
  blacklist.contains ip

/-- `isWindowExpired`: `Date.now() - firstAttempt.getTime() > windowMs`. -/
def isWindowExpired (firstAttempt windowMs now : Nat) : Bool :=
  windowMs + firstAttempt < now

/-- `isBlocked`: a `blockedUntil` still in the future. -/
def isBlocked (blockedUntil : Option Nat) (now : Nat) : Bool :=
  match blockedUntil with
  | some b => now < b
  | none => false

/-- `calculateRetryAfter`: `blockedUntil.getTime() - Date.now()` (only evaluated
while blocked, so the truncated subtraction is exact). -/
def calculateRetryAfter (blockedUntil now : Nat) : Nat :=
  blockedUntil - now

/-- `calculateRemainingAttempts`: `Math.max(0, max - current - 1)`; `Nat`
truncation renders the clamp. -/
def calculateRemainingAttempts (current maxAttempts : Nat) : Nat :=
  maxAttempts - current - 1

/-! ## Rate limiting: decision and record functions (rateLimitingFunctions
source file) -/

/-- The lockout denial reason string from the source. -/
def lockoutReason : String := "Account locked due to too many failed attempts"

/-- The window denial reason string from the source. -/
def rateLimitExceededReason : String := "Rate limit exceeded"

/-- The default `keyGenerator` resolved by `createRateLimitContext`. -/
def rateLimitKey (identifier : String) : String :=
  "rateLimit:" ++ identifier

/-- `checkIPSecurity`: whitelist membership allows outright with the full
budget, blacklist membership denies with reason `"IP blacklisted"`; otherwise
no verdict. Pure — it touches no storage. -/
def checkIPSecurity (identifier : String) (options : RateLimitOptionsResolved)
    (now : Nat) : Option RateLimitResult :=
  if isWhitelisted identifier options.whitelist then
    some { allowed := true, remaining := options.maxAttempts
           resetTime := now + options.windowMs }
  else if isBlacklisted identifier options.blacklist then
    some { allowed := false, remaining := 0
           resetTime := now + options.blockDurationMs
           retryAfter := some options.blockDurationMs
           reason := some "IP blacklisted" }
  else none

/-- `checkBruteForceProtection`: disabled protection or an absent entry yields
no verdict; a `lockedUntil` still in the future denies with
`retryAfter = lockedUntil - now`; otherwise `failedAttempts >=
maxFailedAttempts` persists `lockedUntil = now + lockoutDurationMs` and denies;
otherwise no verdict. -/
def checkBruteForceProtection (userId : String)
    (options : RateLimitOptionsResolved) (now : Nat) (s : RateLimitStore) :
    Option RateLimitResult × RateLimitStore :=
  if !options.bruteForce.enabled then (none, s)
  else
    match getBruteForceEntry userId s with
    | none => (none, s)
    | some entry =>
        if (match entry.lockedUntil with
            | some lockedUntil => decide (now < lockedUntil)
            | none => false) then
          (some { allowed := false, remaining := 0
                  resetTime := entry.lockedUntil.getD now
                  retryAfter := some (calculateRetryAfter (entry.lockedUntil.getD now) now)
                  reason := some lockoutReason }, s)
        else if options.bruteForce.maxFailedAttempts ≤ entry.failedAttempts then
          let lockedUntil := now + options.bruteForce.lockoutDurationMs
          (some { allowed := false, remaining := 0
                  resetTime := lockedUntil
                  retryAfter := some options.bruteForce.lockoutDurationMs
                  reason := some lockoutReason },
           saveBruteForceEntry userId { entry with lockedUntil := some lockedUntil } s)
        else (none, s)

/-- `checkRateLimitEntry`: an absent counter allows with `maxAttempts - 1`
remaining; a `blockedUntil` still in the future denies (this check runs before
the window-expiry check); an expired window allows with `maxAttempts - 1`
remaining but writes nothing back — the stale entry survives the read;
`attempts >= maxAttempts` persists `blockedUntil = now + blockDurationMs` and
denies (the alert hook is a transport side effect, not modelled); otherwise
allowed with the remaining budget against the entry's own window. -/
def checkRateLimitEntry (identifier : String)
    (options : RateLimitOptionsResolved) (now : Nat) (s : RateLimitStore) :
    RateLimitResult × RateLimitStore :=
  let key := rateLimitKey identifier
  match getRateLimitEntry key s with
  | none =>
      ({ allowed := true, remaining := options.maxAttempts - 1
         resetTime := now + options.windowMs }, s)
  | some entry =>
      if isBlocked entry.blockedUntil now then
        ({ allowed := false, remaining := 0
           resetTime := entry.blockedUntil.getD now
           retryAfter := some (calculateRetryAfter (entry.blockedUntil.getD now) now)
           reason := some rateLimitExceededReason }, s)
      else if isWindowExpired entry.firstAttempt options.windowMs now then
        ({ allowed := true, remaining := options.maxAttempts - 1
           resetTime := now + options.windowMs }, s)
      else if options.maxAttempts ≤ entry.attempts then
        let blockedUntil := now + options.blockDurationMs
        ({ allowed := false, remaining := 0
           resetTime := blockedUntil
           retryAfter := some options.blockDurationMs
           reason := some rateLimitExceededReason },
         saveRateLimitEntry key { entry with blockedUntil := some blockedUntil } s)
      else
        ({ allowed := true
           remaining := calculateRemainingAttempts entry.attempts options.maxAttempts
           resetTime := entry.firstAttempt + options.windowMs }, s)

/-- `checkRateLimit`: IP allow/deny lists first, then (when a subject is
given) the brute-force verdict, then the per-identifier window. -/
def checkRateLimit (identifier : String) (options : RateLimitOptionsResolved)
    (userId : Option String) (now : Nat) (s : RateLimitStore) :
    RateLimitResult × RateLimitStore :=
  match checkIPSecurity identifier options now with
  | some result => (result, s)
  | none =>
      match userId with
      | some uid =>
          match checkBruteForceProtection uid options now s with
          | (some result, s₁) => (result, s₁)
          | (none, s₁) => checkRateLimitEntry identifier options now s₁
      | none => checkRateLimitEntry identifier options now s

/-- `recordRateLimitAttempt`: unless the skip flags suppress this outcome,
increment the identifier's counter (the TTL argument only configures the
unmodelled cleanup timer). -/
def recordRateLimitAttempt (identifier : String)
    (options : RateLimitOptionsResolved) (success : Bool) (now : Nat)
    (s : RateLimitStore) : RateLimitStore :=
  if success && options.skipSuccessfulRequests then s
  else if !success && options.skipFailedRequests then s
  else (incrementAttempts (rateLimitKey identifier) now s).2

/-- `recordBruteForceAttempt`: with protection enabled, a success clears the
subject's counter when `resetCountOnSuccess` is set; a failure increments
`failedAttempts`. -/
def recordBruteForceAttempt (userId : String)
    (options : RateLimitOptionsResolved) (success : Bool) (now : Nat)
    (s : RateLimitStore) : RateLimitStore :=
  if !options.bruteForce.enabled then s
  else if success then
    if options.bruteForce.resetCountOnSuccess then clearBruteForceEntry userId s
    else s
  else (incrementFailedAttempts userId now s).2

/-- `recordAttempt`: record the rate-limit attempt, then (when a subject is
given) the brute-force attempt. -/
def recordAttempt (identifier : String) (options : RateLimitOptionsResolved)
    (success : Bool) (userId : Option String) (now : Nat) (s : RateLimitStore) :
    RateLimitStore :=
  let s₁ := recordRateLimitAttempt identifier options success now s
  match userId with
  | some uid => recordBruteForceAttempt uid options success now s₁
  | none => s₁

/-! ## Helper lemmas -/

theorem mapGet_eq_none {K V : Type} [DecidableEq K] (k : K) (m : List (K × V))
    (h : k ∉ m.map Prod.fst) : mapGet k m = none := by
  induction m with
  | nil => rfl
  | cons head rest ih =>
      obtain ⟨k₀, v₀⟩ := head
      simp only [List.map_cons, List.mem_cons] at h
      push_neg at h
      have hk : ¬ k₀ = k := fun hh => h.1 hh.symm
      simp [mapGet, hk, ih h.2]

theorem mapGet_mapDelete {K V : Type} [DecidableEq K] (k : K) (m : List (K × V))
    (hnd : (m.map Prod.fst).Nodup) : mapGet k (mapDelete k m) = none := by
  induction m with
  | nil => rfl
  | cons head rest ih =>
      obtain ⟨k₀, v₀⟩ := head
      simp only [List.map_cons, List.nodup_cons] at hnd
      by_cases h₀ : k₀ = k
      · subst h₀
        simpa [mapDelete] using mapGet_eq_none k₀ rest hnd.1
      · simp [mapDelete, mapGet, h₀, ih hnd.2]

/-- Characterization of a successful `verifyRefreshToken` (typed revision). -/
theorem verifyRefreshToken_ok {token : SignedJwt} {context : AuthContext}
    {now : Nat} {decoded : JwtPayload}
    (h : verifyRefreshToken token context now = .ok decoded) :
    decoded = token.payload ∧ token.secret = context.config.refreshTokenSecret
      ∧ now < token.payload.exp ∧ token.payload.type = "refresh" := by
  unfold verifyRefreshToken at h
  cases hv : jwtVerify token context.config.refreshTokenSecret now with
  | none => simp [hv] at h
  | some p =>
      simp only [hv] at h
      split at h
      · simp at h
      next hne =>
        rw [not_not] at hne
        cases h
        unfold jwtVerify at hv
        split at hv
        next hcond =>
          cases hv
          exact ⟨rfl, hcond.1, hcond.2, hne⟩
        · simp at hv

/-- A refresh token verifies when the secret matches, the signed expiry has not
passed, and the discriminator is `"refresh"`. -/
theorem verifyRefreshToken_ok_of {token : SignedJwt} {context : AuthContext}
    {now : Nat} (hsec : token.secret = context.config.refreshTokenSecret)
    (hexp : now < token.payload.exp) (htype : token.payload.type = "refresh") :
    verifyRefreshToken token context now = .ok token.payload := by
  unfold verifyRefreshToken jwtVerify
  simp [hsec, hexp, htype]

/-- Security checks that pass leave the store untouched. -/
theorem performSecurityChecks_ok_state {tokenData : RefreshTokenData}
    {decoded : JwtPayload} {context : AuthContext} {deviceInfo : Option DeviceInfo}
    {now : Nat} {s s₁ : MemoryStorage} {u : Unit}
    (h : performSecurityChecks tokenData decoded context deviceInfo now s
          = (.ok u, s₁)) : s₁ = s := by
  unfold performSecurityChecks checkConcurrentUsage checkTokenExpiry at h
  by_cases hc : (context.securityOptions.enableConcurrentUsageDetection
      && tokenData.isUsed) = true
  · simp [hc] at h
  · simp only [hc, Bool.false_eq_true, if_false, ite_false] at h
    cases hd : (if context.securityOptions.enableDeviceFingerprinting then
        checkDeviceFingerprint decoded deviceInfo else .ok ()) with
    | error e => simp [hd] at h
    | ok v =>
        simp only [hd] at h
        by_cases he : tokenData.expiresAt < now
        · simp [he] at h
        · simp only [he, if_false, ite_false, Prod.mk.injEq] at h
          exact h.2.symm

/-- Reuse detection fires first: with concurrent-usage detection enabled, a used
record makes the whole check sequence fail with `concurrentUsageDetected` and
revoke every record of the subject, whatever the device or expiry situation. -/
theorem performSecurityChecks_used {tokenData : RefreshTokenData}
    (decoded : JwtPayload) {context : AuthContext}
    (deviceInfo : Option DeviceInfo) (now : Nat) (s : MemoryStorage)
    (hdet : context.securityOptions.enableConcurrentUsageDetection = true)
    (hused : tokenData.isUsed = true) :
    performSecurityChecks tokenData decoded context deviceInfo now s
      = (.error .concurrentUsageDetected,
         invalidateAllUserTokens tokenData.userId s) := by
  unfold performSecurityChecks checkConcurrentUsage
  simp [hdet, hused]

/-- Security checks pass outright on an unused, unexpired record when the device
comparison is not triggered or succeeds. -/
theorem performSecurityChecks_pass {tokenData : RefreshTokenData}
    {decoded : JwtPayload} {context : AuthContext}
    {deviceInfo : Option DeviceInfo} {now : Nat} (s : MemoryStorage)
    (hused : tokenData.isUsed = false)
    (hdev : checkDeviceFingerprint decoded deviceInfo = .ok ())
    (hexp : ¬ tokenData.expiresAt < now) :
    performSecurityChecks tokenData decoded context deviceInfo now s
      = (.ok (), s) := by
  unfold performSecurityChecks checkConcurrentUsage checkTokenExpiry
  by_cases hfp : context.securityOptions.enableDeviceFingerprinting <;>
    simp [hused, hdev, hexp, hfp]

/-- Failure shape of `generateTokenPair`: it succeeds exactly when the signing
library accepts the access expiry string (used for both signs) and the refresh
expiry parses for the record; a rejected access string surfaces as the
library's invalid-expiresIn error, a malformed refresh string as the
`parseExpiry` invalid-expiry-format error. -/
theorem generateTokenPair_error_shape (user : User) (context : AuthContext)
    (deviceInfo : Option DeviceInfo) (now : Nat) (s : MemoryStorage) :
    ((generateTokenPair user context deviceInfo now s).1.isOk = true
      ↔ (msParse context.config.accessTokenExpiry).isSome
        ∧ (parseExpiry context.config.refreshTokenExpiry).isSome)
    ∧ ((∃ str, (generateTokenPair user context deviceInfo now s).1
          = .error (.invalidExpiryFormat str))
        ↔ (msParse context.config.accessTokenExpiry).isSome
          ∧ parseExpiry context.config.refreshTokenExpiry = none)
    ∧ ((∃ str, (generateTokenPair user context deviceInfo now s).1
          = .error (.jwtInvalidExpiresIn str))
        ↔ msParse context.config.accessTokenExpiry = none) := by
  unfold generateTokenPair generateAccessToken generateRefreshToken generateJti
  cases ha : msParse context.config.accessTokenExpiry with
  | none => simp [ha, Except.isOk, Except.toBool]
  | some da =>
      cases hr : parseExpiry context.config.refreshTokenExpiry with
      | none => simp [ha, hr, Except.isOk, Except.toBool]
      | some dr => simp [ha, hr, saveRefreshToken, Except.isOk, Except.toBool]

/-- The successful `generateTokenPair` stores the new refresh record (unused,
expiring `refreshMs` after `now`) under the new token and leaves every other
key unchanged. -/
theorem generateTokenPair_ok_tokens {user : User} {context : AuthContext}
    {deviceInfo : Option DeviceInfo} {now : Nat} {s s' : MemoryStorage}
    {pair : TokenPair}
    (h : generateTokenPair user context deviceInfo now s = (.ok pair, s')) :
    ∃ rd : RefreshTokenData, rd.isUsed = false
      ∧ s'.tokens = mapSet pair.refreshToken rd s.tokens := by
  unfold generateTokenPair generateAccessToken generateRefreshToken generateJti at h
  cases ha : msParse context.config.accessTokenExpiry with
  | none => simp [ha] at h
  | some da =>
      cases hr : parseExpiry context.config.refreshTokenExpiry with
      | none => simp [ha, hr] at h
      | some dr =>
          simp only [ha, hr, saveRefreshToken, Prod.mk.injEq] at h
          obtain ⟨hpair, hs⟩ := h
          cases hpair
          exact ⟨_, rfl, congrArg MemoryStorage.tokens hs.symm⟩

/-- Marking a present record used makes its stored copy read back as used. -/
theorem getRefreshToken_markTokenAsUsed {token : SignedJwt} {s : MemoryStorage}
    {d : RefreshTokenData} (h : getRefreshToken token s = some d) :
    getRefreshToken token (markTokenAsUsed token s)
      = some { d with isUsed := true } := by
  unfold getRefreshToken at h ⊢
  unfold markTokenAsUsed
  simp [h, mapGet_mapSet]

theorem jwtVerify_eq_some {token : SignedJwt} {secret : String} {now : Nat}
    {p : JwtPayload} (h : jwtVerify token secret now = some p) :
    p = token.payload ∧ token.secret = secret ∧ now < token.payload.exp := by
  unfold jwtVerify at h
  split at h
  next hc =>
    cases h
    exact ⟨rfl, hc.1, hc.2⟩
  · exact Option.noConfusion h

theorem jwtVerify_valid {token : SignedJwt} {secret : String} {now : Nat}
    (hsec : token.secret = secret) (hexp : now < token.payload.exp) :
    jwtVerify token secret now = some token.payload := by
  unfold jwtVerify
  rw [if_pos ⟨hsec, hexp⟩]

/-- A device hash is never the empty string, so a stored hash is always truthy. -/
theorem generateDeviceHash_ne (F : String) : generateDeviceHash F ≠ "" := by
  intro h
  have hc := congrArg String.data h
  rw [generateDeviceHash, String.data_append] at hc
  have h7 : "sha256:".data ≠ [] := by decide
  exact h7 (List.append_eq_nil.mp hc).1

theorem truthy_deviceHash (F : String) :
    truthy (some (generateDeviceHash F)) = true := by
  simp [truthy, generateDeviceHash_ne F]

/-- The device comparison fails when the claims carry the hash of `F` and the
caller presents a non-empty `G ≠ F` (hash injectivity in the idealized model). -/
theorem checkDeviceFingerprint_mismatch {decoded : JwtPayload} {F G : String}
    (hdh : decoded.deviceHash = some (generateDeviceHash F))
    (hGF : G ≠ F) (hG : G ≠ "") :
    checkDeviceFingerprint decoded (some { fingerprint := some G })
      = .error .deviceMismatch := by
  have hne : generateDeviceHash F ≠ generateDeviceHash G :=
    fun hh => hGF (generateDeviceHash_injective hh).symm
  unfold checkDeviceFingerprint
  simp [hdh, truthy, generateDeviceHash_ne F, hG, hne]

/-- The device comparison passes when the caller presents the very fingerprint
whose hash the claims carry. -/
theorem checkDeviceFingerprint_match {decoded : JwtPayload} {F : String}
    (hdh : decoded.deviceHash = some (generateDeviceHash F)) :
    checkDeviceFingerprint decoded (some { fingerprint := some F }) = .ok () := by
  unfold checkDeviceFingerprint
  by_cases hF : F = ""
  · simp [truthy, hdh, hF]
  · simp [truthy, hdh, hF]

/-- The device comparison is skipped outright when the presented device info
carries no (truthy) fingerprint. -/
theorem checkDeviceFingerprint_skip {decoded : JwtPayload}
    {deviceInfo : Option DeviceInfo}
    (hnofp : truthy (deviceInfo.bind DeviceInfo.fingerprint) = false) :
    checkDeviceFingerprint decoded deviceInfo = .ok () := by
  unfold checkDeviceFingerprint
  simp [hnofp]

/-- The security-check sequence errors with `deviceMismatch` and leaves the
store untouched on an unused record whose device comparison fails. -/
theorem performSecurityChecks_deviceMismatch {tokenData : RefreshTokenData}
    {decoded : JwtPayload} {context : AuthContext}
    {deviceInfo : Option DeviceInfo} (now : Nat) (s : MemoryStorage)
    (hused : tokenData.isUsed = false)
    (hfp : context.securityOptions.enableDeviceFingerprinting = true)
    (hdev : checkDeviceFingerprint decoded deviceInfo = .error .deviceMismatch) :
    performSecurityChecks tokenData decoded context deviceInfo now s
      = (.error .deviceMismatch, s) := by
  unfold performSecurityChecks checkConcurrentUsage
  simp [hused, hfp, hdev]

/-- `refreshTokens` succeeds outright on a valid token whose stored record is
unused and unexpired, when the device comparison does not fail and both expiry
strings parse. -/
theorem refreshTokens_ok_of {token : SignedJwt} {context : AuthContext}
    {deviceInfo : Option DeviceInfo} {now : Nat} {s : MemoryStorage}
    {d : RefreshTokenData} {da dr : Nat}
    (hsec : token.secret = context.config.refreshTokenSecret)
    (htype : token.payload.type = "refresh")
    (hnow : now < token.payload.exp)
    (hget : getRefreshToken token s = some d)
    (hused : d.isUsed = false)
    (hdev : checkDeviceFingerprint token.payload deviceInfo = .ok ())
    (hexp : ¬ d.expiresAt < now)
    (ha : parseExpiry context.config.accessTokenExpiry = some da)
    (hr : parseExpiry context.config.refreshTokenExpiry = some dr) :
    (refreshTokens token context deviceInfo now s).1.isOk = true := by
  have hv := verifyRefreshToken_ok_of hsec hnow htype
  have hp := @performSecurityChecks_pass d token.payload context deviceInfo
    now s hused hdev hexp
  simp only [refreshTokens, hv, hget, hp]
  exact (generateTokenPair_error_shape _ _ _ _ _).1.mpr
    (by simp [msParse, ha, hr])

/-! ## Concrete fixtures for counterexamples and witnesses -/

/-- A fixture refresh token for user `u1`, signed under secret `"r"`. -/
def tok0 : SignedJwt :=
  { payload := { userId := "u1", type := "refresh", jti := some "j0",
                 iat := 0, exp := 1000000 }
    secret := "r" }

/-- The stored record of `tok0`, unused and unexpired. -/
def record0 : RefreshTokenData :=
  { id := "1", userId := "u1", token := tok0, isUsed := false,
    createdAt := 0, expiresAt := 1000000 }

/-- A store holding exactly `record0`. -/
def store0 : MemoryStorage :=
  { tokens := [(tok0, record0)], idCounter := 2, uuidSeed := 1 }

/-- An empty token store. -/
def emptyStore : MemoryStorage :=
  { tokens := [], idCounter := 1, uuidSeed := 0 }

/-- A well-formed resolved configuration. -/
def cfg0 : TokenConfigResolved :=
  { accessTokenSecret := "a", refreshTokenSecret := "r",
    accessTokenExpiry := "15m", refreshTokenExpiry := "7d" }

/-- Resolved security options with the given rotation / detection /
fingerprinting toggles. -/
def secOpts (rot det fp : Bool) : SecurityOptionsResolved :=
  { enableTokenRotation := rot, enableConcurrentUsageDetection := det,
    enableDeviceFingerprinting := fp, enableLocationTracking := false,
    maxConcurrentTokens := 5 }

/-- Rotation and concurrent-usage detection on, fingerprinting off. -/
def ctxRace : AuthContext := { config := cfg0, securityOptions := secOpts true true false }

/-- Rotation on, concurrent-usage detection off. -/
def ctxNoDetect : AuthContext := { config := cfg0, securityOptions := secOpts true false false }

/-- Rotation, detection and device fingerprinting all on. -/
def ctxFp : AuthContext := { config := cfg0, securityOptions := secOpts true true true }

/-- `record0` already marked used. -/
def recordUsed : RefreshTokenData := { record0 with isUsed := true }

/-- A store holding the used record. -/
def storeUsed : MemoryStorage :=
  { tokens := [(tok0, recordUsed)], idCounter := 2, uuidSeed := 1 }

/-- A caller configuration with a malformed access expiry string. -/
def cfgBad : TokenConfig :=
  { accessTokenSecret := "a", refreshTokenSecret := "r",
    accessTokenExpiry := some "soon", refreshTokenExpiry := some "7d" }

/-- A caller configuration relying on the default expiries. -/
def cfgGood : TokenConfig :=
  { accessTokenSecret := "a", refreshTokenSecret := "r" }

/-- A refresh token bound to device fingerprint `"F"`. -/
def tokF : SignedJwt :=
  { payload := { userId := "u1", type := "refresh", jti := some "j0",
                 deviceHash := some (generateDeviceHash "F"), iat := 0,
                 exp := 1000000 }
    secret := "r" }

/-- The stored record of `tokF`, used and already expired. -/
def recordFUsedExpired : RefreshTokenData :=
  { id := "1", userId := "u1", token := tokF, deviceFingerprint := some "F",
    isUsed := true, createdAt := 0, expiresAt := 400 }

/-- A store holding the used-and-expired device-bound record. -/
def storeFUsedExpired : MemoryStorage :=
  { tokens := [(tokF, recordFUsedExpired)], idCounter := 2, uuidSeed := 1 }

/-- The stored record of `tokF`, unused and unexpired. -/
def recordF : RefreshTokenData :=
  { id := "1", userId := "u1", token := tokF, deviceFingerprint := some "F",
    isUsed := false, createdAt := 0, expiresAt := 1000000 }

/-- A store holding the fresh device-bound record. -/
def storeF : MemoryStorage :=
  { tokens := [(tokF, recordF)], idCounter := 2, uuidSeed := 1 }

/-- Device info presenting fingerprint `"G"`. -/
def devG : DeviceInfo := { fingerprint := some "G" }

/-- Device info presenting fingerprint `"F"`. -/
def devF : DeviceInfo := { fingerprint := some "F" }

/-! ## Claim C3 -/

/-- Counterexample to claim C3 as stated: with concurrent-usage detection
disabled, a record with `used == true` passes the security checks without any
`ConcurrentUsageDetected` failure, so the claim does not hold for every stored
record presented to the checks. -/
theorem reuse_precedence_cex :
    recordUsed.isUsed = true
    ∧ (performSecurityChecks recordUsed tok0.payload ctxNoDetect none 100
        storeUsed).1 = .ok () := by
  constructor
  · rfl
  · decide

/-- Claim C3 (amended: requires `enableConcurrentUsageDetection`): with
concurrent-usage detection enabled, presenting a stored record with
`used == true` makes the security checks fail with `ConcurrentUsageDetected`
and invalidate every record of the record's subject — for every decoded
payload, device info and clock, so in particular also when the record is
expired or device-mismatched, because the reuse check runs first. -/
theorem reuse_precedence_amended (tokenData : RefreshTokenData)
    (decoded : JwtPayload) (context : AuthContext)
    (deviceInfo : Option DeviceInfo) (now : Nat) (s : MemoryStorage)
    (hdet : context.securityOptions.enableConcurrentUsageDetection = true)
    (hused : tokenData.isUsed = true) :
    performSecurityChecks tokenData decoded context deviceInfo now s
      = (.error .concurrentUsageDetected,
         invalidateAllUserTokens tokenData.userId s) :=
  performSecurityChecks_used decoded deviceInfo now s hdet hused

/-- Witness for C3: a record that is used, expired, and device-mismatched still
yields the `ConcurrentUsageDetected` verdict with the subject's records
invalidated. -/
theorem reuse_precedence_amended_witness :
    recordFUsedExpired.isUsed = true
    ∧ recordFUsedExpired.expiresAt < 500
    ∧ performSecurityChecks recordFUsedExpired tokF.payload ctxFp (some devG)
        500 storeFUsedExpired
      = (.error .concurrentUsageDetected,
         invalidateAllUserTokens recordFUsedExpired.userId storeFUsedExpired) :=
  ⟨rfl, by decide,
   reuse_precedence_amended recordFUsedExpired tokF.payload ctxFp (some devG)
     500 storeFUsedExpired rfl rfl⟩

/-! ## Claim C4 -/

/-- Claim C4: verification checks the `type` discriminator explicitly — a token
whose payload `type` is not the expected kind is rejected by
`verifyAccessToken` / `verifyRefreshToken`, and in particular a token whose
signature does validate under the expected secret is still rejected with the
`Invalid token type` error. -/
theorem kind_discriminator_checked (token : SignedJwt) (context : AuthContext)
    (now : Nat) :
    (token.payload.type ≠ "access" →
      (verifyAccessToken token context now).isOk = false)
    ∧ (token.payload.type ≠ "refresh" →
      (verifyRefreshToken token context now).isOk = false)
    ∧ (token.secret = context.config.accessTokenSecret →
        now < token.payload.exp → token.payload.type ≠ "access" →
        verifyAccessToken token context now = .error .invalidTokenType)
    ∧ (token.secret = context.config.refreshTokenSecret →
        now < token.payload.exp → token.payload.type ≠ "refresh" →
        verifyRefreshToken token context now = .error .invalidTokenType) := by
  refine ⟨?_, ?_, ?_, ?_⟩
  · intro htype
    unfold verifyAccessToken
    cases hv : jwtVerify token context.config.accessTokenSecret now with
    | none => simp [Except.isOk, Except.toBool]
    | some p =>
        obtain ⟨hp, -, -⟩ := jwtVerify_eq_some hv
        subst hp
        simp [htype, Except.isOk, Except.toBool]
  · intro htype
    unfold verifyRefreshToken
    cases hv : jwtVerify token context.config.refreshTokenSecret now with
    | none => simp [Except.isOk, Except.toBool]
    | some p =>
        obtain ⟨hp, -, -⟩ := jwtVerify_eq_some hv
        subst hp
        simp [htype, Except.isOk, Except.toBool]
  · intro hsec hexp htype
    unfold verifyAccessToken
    rw [jwtVerify_valid hsec hexp]
    simp [htype]
  · intro hsec hexp htype
    unfold verifyRefreshToken
    rw [jwtVerify_valid hsec hexp]
    simp [htype]

/-- Witness for C4: `tok0` (a `"refresh"`-typed token) signed under a secret
that is also the access secret is rejected by `verifyAccessToken` with the
type error, not accepted. -/
theorem kind_discriminator_checked_witness :
    verifyAccessToken tok0
      { config := { accessTokenSecret := "r", refreshTokenSecret := "r",
                    accessTokenExpiry := "15m", refreshTokenExpiry := "7d" }
        securityOptions := secOpts true true false } 5
      = .error .invalidTokenType :=
  (kind_discriminator_checked tok0
    { config := { accessTokenSecret := "r", refreshTokenSecret := "r",
                  accessTokenExpiry := "15m", refreshTokenExpiry := "7d" }
      securityOptions := secOpts true true false } 5).2.2.1
    rfl (by decide) (by decide)

/-! ## Claim C5 -/

/-- Claim C5 is refuted by the code: `generateRefreshToken` signs the refresh
credential with `expiresIn: context.config.accessTokenExpiry` — the access
expiry policy — while `generateTokenPair` persists
`expiresAt = now + parseExpiry(refreshTokenExpiry)` for the same credential.
Under the default `"15m"` / `"7d"` policies the refresh token's embedded
expiry is `now + 900000` but its stored record expires at `now + 604800000`,
so the embedded duration is neither derived from `refreshTokenExpiry` nor
consistent with the persisted `expiresAt`; the record computation in the very
same function follows the refresh policy, marking the signing call as the
slip. -/
theorem refresh_expiry_policy_bug :
    msParse ctxRace.config.accessTokenExpiry = some 900000
    ∧ parseExpiry ctxRace.config.refreshTokenExpiry = some 604800000
    ∧ (generateTokenPair { id := "u1" } ctxRace none 100 emptyStore).1.isOk
        = true
    ∧ ((generateTokenPair { id := "u1" } ctxRace none 100
          emptyStore).1.toOption.map
        (fun pair => pair.refreshToken.payload.exp)) = some (100 + 900000)
    ∧ ((generateTokenPair { id := "u1" } ctxRace none 100
          emptyStore).1.toOption.bind
        (fun pair =>
          (getRefreshToken pair.refreshToken
            (generateTokenPair { id := "u1" } ctxRace none 100
              emptyStore).2).map
            (fun rd => rd.expiresAt))) = some (100 + 604800000)
    ∧ some (100 + 900000) ≠ (some (100 + 604800000) : Option Nat) := by
  refine ⟨by decide, by decide, by decide, by decide, by decide, by decide⟩

/-! ## Claim C6 -/

/-- A caller configuration with a malformed refresh expiry string. -/
def cfgBadRefresh : TokenConfig :=
  { accessTokenSecret := "a", refreshTokenSecret := "r",
    accessTokenExpiry := some "15m", refreshTokenExpiry := some "later" }

/-- Counterexample to claim C6 as stated: `createAuthContext` accepts malformed
expiry strings without failing (it returns a context), and signing through such
a context then does fail — with the invalid-expiry-format error when the
refresh expiry is malformed (the `parseExpiry` call building the record), and
with the signing library's own rejection when the access expiry is malformed.
Validation is lazy, not at construction. -/
theorem expiry_failfast_cex :
    createAuthContext cfgBadRefresh {} =
      { config := { accessTokenSecret := "a", refreshTokenSecret := "r",
                    accessTokenExpiry := "15m", refreshTokenExpiry := "later" }
        securityOptions := secOpts true true false }
    ∧ (generateTokenPair { id := "u1" } (createAuthContext cfgBadRefresh {})
        none 0 emptyStore).1 = .error (.invalidExpiryFormat "later")
    ∧ (generateTokenPair { id := "u1" } (createAuthContext cfgBad {}) none 0
        emptyStore).1 = .error (.jwtInvalidExpiresIn "soon") := by
  refine ⟨by decide, by decide, by decide⟩

/-- Claim C6 (amended: validation is lazy, at sign time, and which error fires
depends on which policy string is malformed): `createAuthContext` always
returns a context, never validating the expiry strings; for any context it
returns, `generateTokenPair` fails with the invalid-expiry-format error exactly
when the signing library accepts the access expiry string but the refresh
expiry misses the `parseExpiry` unit table, fails with the library's
invalid-expiresIn rejection exactly when the access expiry string is not
accepted, and succeeds whenever both are well-formed. -/
theorem expiry_failfast_amended (config : TokenConfig) (opts : SecurityOptions)
    (user : User) (deviceInfo : Option DeviceInfo) (now : Nat)
    (s : MemoryStorage) :
    ((generateTokenPair user (createAuthContext config opts)
        deviceInfo now s).1.isOk = true
      ↔ (msParse (createAuthContext config opts).config.accessTokenExpiry).isSome
        ∧ (parseExpiry (createAuthContext config opts).config.refreshTokenExpiry).isSome)
    ∧ ((∃ str, (generateTokenPair user (createAuthContext config opts)
          deviceInfo now s).1 = .error (.invalidExpiryFormat str))
      ↔ (msParse (createAuthContext config opts).config.accessTokenExpiry).isSome
        ∧ parseExpiry (createAuthContext config opts).config.refreshTokenExpiry = none)
    ∧ ((∃ str, (generateTokenPair user (createAuthContext config opts)
          deviceInfo now s).1 = .error (.jwtInvalidExpiresIn str))
      ↔ msParse (createAuthContext config opts).config.accessTokenExpiry = none) :=
  generateTokenPair_error_shape user (createAuthContext config opts)
    deviceInfo now s

/-! ## Claim C7 -/

/-- Claim C7: with device binding enabled, presenting a wrong non-empty
fingerprint `G ≠ F` to `refreshTokens` fails with `DeviceMismatch` and returns
the store exactly as it was — the record is not marked used, not deleted, and
no other record is touched — and the same call made with the correct
fingerprint `F` (on that unchanged store) succeeds. -/
theorem device_mismatch_frame (token : SignedJwt) (context : AuthContext)
    (F G : String) (now now₂ : Nat) (s : MemoryStorage) (d : RefreshTokenData)
    (da dr : Nat)
    (hfp : context.securityOptions.enableDeviceFingerprinting = true)
    (hdh : token.payload.deviceHash = some (generateDeviceHash F))
    (hGF : G ≠ F) (hG : G ≠ "")
    (hsec : token.secret = context.config.refreshTokenSecret)
    (htype : token.payload.type = "refresh")
    (hnow : now < token.payload.exp) (hnow₂ : now₂ < token.payload.exp)
    (hget : getRefreshToken token s = some d)
    (hused : d.isUsed = false)
    (hexp₂ : ¬ d.expiresAt < now₂)
    (ha : parseExpiry context.config.accessTokenExpiry = some da)
    (hr : parseExpiry context.config.refreshTokenExpiry = some dr) :
    refreshTokens token context (some { fingerprint := some G }) now s
      = (.error .deviceMismatch, s)
    ∧ (refreshTokens token context (some { fingerprint := some F }) now₂ s).1.isOk
        = true := by
  constructor
  · have hv := verifyRefreshToken_ok_of hsec hnow htype
    have hdev := checkDeviceFingerprint_mismatch hdh hGF hG
    have hp := @performSecurityChecks_deviceMismatch d token.payload context
      (some { fingerprint := some G }) now s hused hfp hdev
    simp only [refreshTokens, hv, hget, hp]
  · exact refreshTokens_ok_of hsec htype hnow₂ hget hused
      (checkDeviceFingerprint_match hdh) hexp₂ ha hr

/-- Witness for C7 at the device-bound fixture: fingerprint `"G"` is rejected
without touching the store, fingerprint `"F"` still succeeds. -/
theorem device_mismatch_frame_witness :
    refreshTokens tokF ctxFp (some { fingerprint := some "G" }) 100 storeF
      = (.error .deviceMismatch, storeF)
    ∧ (refreshTokens tokF ctxFp (some { fingerprint := some "F" }) 200
        storeF).1.isOk = true :=
  device_mismatch_frame tokF ctxFp "F" "G" 100 200 storeF recordF
    900000 604800000 rfl rfl (by decide) (by decide) rfl rfl (by decide)
    (by decide) rfl rfl (by decide) (by decide) (by decide)

/-! ## Claim C10 -/

/-- Claim C10 (implicit): even with device fingerprinting enabled and a token
whose claims carry a `deviceHash`, no device comparison is enforced when the
caller presents no truthy fingerprint — the check passes vacuously and the
device-bound token refreshes successfully with the fingerprint omitted. -/
theorem device_check_skipped_without_fingerprint (token : SignedJwt)
    (context : AuthContext) (deviceInfo : Option DeviceInfo) (now : Nat)
    (s : MemoryStorage) (d : RefreshTokenData) (da dr : Nat)
    (hfp : context.securityOptions.enableDeviceFingerprinting = true)
    (hdh : truthy token.payload.deviceHash = true)
    (hnofp : truthy (deviceInfo.bind DeviceInfo.fingerprint) = false)
    (hsec : token.secret = context.config.refreshTokenSecret)
    (htype : token.payload.type = "refresh")
    (hnow : now < token.payload.exp)
    (hget : getRefreshToken token s = some d)
    (hused : d.isUsed = false)
    (hexp : ¬ d.expiresAt < now)
    (ha : parseExpiry context.config.accessTokenExpiry = some da)
    (hr : parseExpiry context.config.refreshTokenExpiry = some dr) :
    checkDeviceFingerprint token.payload deviceInfo = .ok ()
    ∧ (refreshTokens token context deviceInfo now s).1.isOk = true := by
  have hdev := @checkDeviceFingerprint_skip token.payload deviceInfo hnofp
  exact ⟨hdev, refreshTokens_ok_of hsec htype hnow hget hused hdev hexp ha hr⟩

/-- Witness for C10: the device-bound fixture token refreshes with no device
info presented at all. -/
theorem device_check_skipped_without_fingerprint_witness :
    checkDeviceFingerprint tokF.payload none = .ok ()
    ∧ (refreshTokens tokF ctxFp none 100 storeF).1.isOk = true :=
  device_check_skipped_without_fingerprint tokF ctxFp none 100 storeF recordF
    900000 604800000 rfl (by decide) rfl rfl rfl (by decide) rfl rfl
    (by decide) (by decide) (by decide)

/-! ## Claim C2 -/

/-- Counterexample to claim C2 as stated: in a context with rotation enabled
but concurrent-usage detection disabled, a second `refreshTokens` with the same
original token does not fail with `ConcurrentUsageDetected` — it succeeds. -/
theorem rotation_monotonicity_cex :
    ctxNoDetect.securityOptions.enableTokenRotation = true
    ∧ (refreshTokens tok0 ctxNoDetect none 100 store0).1.isOk = true
    ∧ (refreshTokens tok0 ctxNoDetect none 200
        (refreshTokens tok0 ctxNoDetect none 100 store0).2).1
        ≠ .error .concurrentUsageDetected
    ∧ (refreshTokens tok0 ctxNoDetect none 200
        (refreshTokens tok0 ctxNoDetect none 100 store0).2).1.isOk = true := by
  refine ⟨rfl, by decide, by decide, by decide⟩

/-- Claim C2 (amended: requires concurrent-usage detection enabled alongside
rotation, and the original token still within its signed validity window):
after `refreshTokens(rt)` succeeds, running `refreshTokens(rt)` on the
resulting store fails with `ConcurrentUsageDetected`, for any later clock
`now'` at which the token still verifies, any presented device info, and
regardless of the freshly issued pair (which is distinct from `rt`). -/
theorem rotation_monotonicity_amended (token : SignedJwt)
    (context : AuthContext) (di di' : Option DeviceInfo) (now now' : Nat)
    (s s' : MemoryStorage) (pair : TokenPair)
    (hrot : context.securityOptions.enableTokenRotation = true)
    (hdet : context.securityOptions.enableConcurrentUsageDetection = true)
    (hfirst : refreshTokens token context di now s = (.ok pair, s'))
    (hfresh : pair.refreshToken ≠ token)
    (hnow' : now' < token.payload.exp) :
    (refreshTokens token context di' now' s').1
      = .error .concurrentUsageDetected := by
  unfold refreshTokens at hfirst
  cases hv : verifyRefreshToken token context now with
  | error e => simp [hv] at hfirst
  | ok decoded =>
      simp only [hv] at hfirst
      cases hg : getRefreshToken token s with
      | none => simp [hg] at hfirst
      | some d =>
          simp only [hg] at hfirst
          cases hc : performSecurityChecks d decoded context di now s with
          | mk res s₁ =>
              cases res with
              | error e => simp [hc] at hfirst
              | ok u =>
                  simp only [hc, hrot, if_true] at hfirst
                  have hs₁ : s₁ = s := performSecurityChecks_ok_state hc
                  subst hs₁
                  obtain ⟨rd, hrdUsed, hrdTokens⟩ :=
                    generateTokenPair_ok_tokens hfirst
                  obtain ⟨hdec, hsec, hnow, htype⟩ := verifyRefreshToken_ok hv
                  subst hdec
                  have hmark : getRefreshToken token (markTokenAsUsed token s₁)
                      = some { d with isUsed := true } :=
                    getRefreshToken_markTokenAsUsed hg
                  have hget' : getRefreshToken token s'
                      = some { d with isUsed := true } := by
                    unfold getRefreshToken at hmark ⊢
                    rw [hrdTokens, mapGet_mapSet_ne _ _ _ _ (Ne.symm hfresh)]
                    exact hmark
                  have hv' : verifyRefreshToken token context now'
                      = .ok token.payload :=
                    verifyRefreshToken_ok_of hsec hnow' htype
                  have hchk := @performSecurityChecks_used
                    { d with isUsed := true } token.payload context
                    di' now' s' hdet rfl
                  simp only [refreshTokens, hv', hget', hchk]

instance : Inhabited JwtPayload :=
  ⟨{ userId := "", type := "", iat := 0, exp := 0 }⟩

instance : Inhabited SignedJwt := ⟨{ payload := default, secret := "" }⟩

instance : Inhabited TokenPair :=
  ⟨{ accessToken := default, refreshToken := default }⟩

/-- Witness for C2 (amended) at the fixture: under rotation plus detection, the
repeat refresh of `tok0` yields `ConcurrentUsageDetected`. -/
theorem rotation_monotonicity_amended_witness :
    (refreshTokens tok0 ctxRace none 200
      (refreshTokens tok0 ctxRace none 100 store0).2).1
      = .error .concurrentUsageDetected :=
  rotation_monotonicity_amended tok0 ctxRace none none 100 200 store0
    (refreshTokens tok0 ctxRace none 100 store0).2
    (refreshTokens tok0 ctxRace none 100 store0).1.toOption.get!
    rfl rfl (by decide) (by decide) (by decide)

/-! ## Claim C1 -/

/-- Claim C1 is refuted by the code: the read-record / check-used / mark-used
sequence of `refreshTokens` is not atomic. Under the interleaving in which both
concurrent calls read the (still unused) record before either marks it used —
schedule A, B, A, A, A, B, B, B over the `await` boundaries — both calls return
a fresh token pair, although rotation and concurrent-usage detection are both
enabled and the store initially holds a single unused record. Run without
interleaving, the second call fails as intended, isolating the race itself. -/
theorem refresh_race_both_succeed :
    record0.isUsed = false
    ∧ (runRace tok0 ctxRace none 100
        [true, false, true, true, true, false, false, false]
        { a := .running .ready, b := .running .ready,
          store := store0 }).a.isSuccess = true
    ∧ (runRace tok0 ctxRace none 100
        [true, false, true, true, true, false, false, false]
        { a := .running .ready, b := .running .ready,
          store := store0 }).b.isSuccess = true
    ∧ (runRace tok0 ctxRace none 100
        [true, true, true, true, false, false, false, false]
        { a := .running .ready, b := .running .ready,
          store := store0 }).b
      = .finished (.error .concurrentUsageDetected) := by
  refine ⟨rfl, by decide, by decide, by decide⟩

/-! ## Rate limiting lemmas and fixtures -/

theorem bruteForceEntries_incrementAttempts (key : String) (now : Nat)
    (s : RateLimitStore) :
    ((incrementAttempts key now s).2).bruteForceEntries = s.bruteForceEntries := by
  unfold incrementAttempts saveRateLimitEntry
  rfl

/-- One failed `recordAttempt` bumps (or creates) the subject's brute-force
entry, leaving `lockedUntil` as it was. -/
theorem recordAttempt_fail_bf (identifier : String)
    (options : RateLimitOptionsResolved) (uid : String) (now : Nat)
    (s : RateLimitStore) (hen : options.bruteForce.enabled = true) :
    getBruteForceEntry uid
      (recordAttempt identifier options false (some uid) now s)
      = some (match getBruteForceEntry uid s with
              | some e =>
                  { e with
                    failedAttempts := e.failedAttempts + 1
                    lastFailedAttempt := now }
              | none =>
                  { userId := uid
                    failedAttempts := 1
                    lastFailedAttempt := now }) := by
  unfold recordAttempt recordRateLimitAttempt recordBruteForceAttempt
    incrementFailedAttempts saveBruteForceEntry getBruteForceEntry
  cases hskip : options.skipFailedRequests with
  | false =>
      simp [hen, hskip, bruteForceEntries_incrementAttempts, mapGet_mapSet]
  | true =>
      simp [hen, hskip, mapGet_mapSet]

/-- `k + 1` failed records starting from no entry leave the subject at
`failedAttempts = k + 1`, unlocked. -/
theorem recordAttempt_fail_iterate (identifier : String)
    (options : RateLimitOptionsResolved) (uid : String) (now : Nat)
    (hen : options.bruteForce.enabled = true) :
    ∀ (k : Nat) (s : RateLimitStore), getBruteForceEntry uid s = none →
      getBruteForceEntry uid
        ((recordAttempt identifier options false (some uid) now)^[k + 1] s)
        = some { userId := uid
                 failedAttempts := k + 1
                 lockedUntil := none
                 lastFailedAttempt := now } := by
  intro k
  induction k with
  | zero =>
      intro s h0
      rw [Function.iterate_one]
      rw [recordAttempt_fail_bf identifier options uid now s hen, h0]
  | succ n ih =>
      intro s h0
      rw [Function.iterate_succ_apply']
      rw [recordAttempt_fail_bf identifier options uid now _ hen, ih s h0]

/-- Rate-limit options fixture: window 3/1000ms, brute force 10 failures,
one-hour lockout, reset on success. -/
def rlOpts : RateLimitOptionsResolved :=
  { maxAttempts := 3, windowMs := 1000, blockDurationMs := 5000,
    skipSuccessfulRequests := false, skipFailedRequests := false,
    whitelist := [], blacklist := [],
    bruteForce := { enabled := true, maxFailedAttempts := 10,
                    lockoutDurationMs := 3600000, resetCountOnSuccess := true } }

/-- An empty rate-limit store. -/
def rlStore0 : RateLimitStore := { rateLimitEntries := [], bruteForceEntries := [] }

/-- A counter whose window (1000ms from 0) has expired by `now = 2000`. -/
def staleEntry : RateLimitEntry :=
  { attempts := 3, firstAttempt := 0, lastAttempt := 900 }

/-- A store holding only the stale counter for `1.2.3.4`. -/
def rlStoreStale : RateLimitStore :=
  { rateLimitEntries := [(rateLimitKey "1.2.3.4", staleEntry)],
    bruteForceEntries := [] }

/-- A subject five failures in, below the threshold of ten. -/
def bfEntry5 : BruteForceEntry :=
  { userId := "u1", failedAttempts := 5, lastFailedAttempt := 50 }

/-- A store holding only that subject's brute-force entry. -/
def rlStoreBf5 : RateLimitStore :=
  { rateLimitEntries := [], bruteForceEntries := [("u1", bfEntry5)] }

/-! ## Claim C8 -/

/-- Claim C8 is refuted by the code: on a window-expired counter,
`checkRateLimit` does report the full remaining budget (`maxAttempts - 1`, as
for an absent entry), but the counter does not reset on that read — the
window-expired branch of `checkRateLimitEntry` (its `Reset counter` comment
notwithstanding) writes nothing back, so the stale entry survives, and the next
recorded attempt increments it in place: `attempts` grows to 4 and
`firstAttempt` stays at the stale 0 instead of starting a fresh window at the
new attempt's time. -/
theorem rate_window_stale_counter :
    staleEntry.attempts = 3
    ∧ staleEntry.firstAttempt = 0
    ∧ isWindowExpired staleEntry.firstAttempt rlOpts.windowMs 2000 = true
    ∧ (checkRateLimit "1.2.3.4" rlOpts none 2000 rlStoreStale).1.allowed = true
    ∧ (checkRateLimit "1.2.3.4" rlOpts none 2000 rlStoreStale).1.remaining
        = rlOpts.maxAttempts - 1
    ∧ (checkRateLimit "1.2.3.4" rlOpts none 2000 rlStoreStale).2 = rlStoreStale
    ∧ getRateLimitEntry (rateLimitKey "1.2.3.4")
        (recordAttempt "1.2.3.4" rlOpts false none 2500
          (checkRateLimit "1.2.3.4" rlOpts none 2000 rlStoreStale).2)
      = some { attempts := 4, firstAttempt := 0, lastAttempt := 2500 } := by
  refine ⟨rfl, rfl, by decide, by decide, by decide, by decide, by decide⟩

/-! ## Claim C9 -/

/-- Claim C9: with brute-force protection enabled, `maxFailedAttempts = 10`
and `resetCountOnSuccess = true`, ten failed `recordAttempt` calls for a
subject make the next `checkRateLimit` carrying that subject deny with the
lockout reason and persist `lockedUntil = now' + lockoutDurationMs`; and one
successful `recordAttempt` for a subject below the threshold clears its
counter — failed count back to zero, since an absent entry counts failures
from zero again. -/
theorem brute_force_lockout (identifier ident₂ : String) (uid : String)
    (options : RateLimitOptionsResolved) (now now' : Nat)
    (s t : RateLimitStore) (e : BruteForceEntry)
    (hen : options.bruteForce.enabled = true)
    (hmax : options.bruteForce.maxFailedAttempts = 10)
    (hreset : options.bruteForce.resetCountOnSuccess = true)
    (hw : isWhitelisted ident₂ options.whitelist = false)
    (hb : isBlacklisted ident₂ options.blacklist = false)
    (hnone : getBruteForceEntry uid s = none)
    (hsome : getBruteForceEntry uid t = some e)
    (hlt : e.failedAttempts < 10)
    (hndt : (t.bruteForceEntries.map Prod.fst).Nodup) :
    ((checkRateLimit ident₂ options (some uid) now'
        ((recordAttempt identifier options false (some uid) now)^[10] s)).1.allowed
      = false)
    ∧ ((checkRateLimit ident₂ options (some uid) now'
        ((recordAttempt identifier options false (some uid) now)^[10] s)).1.reason
      = some lockoutReason)
    ∧ (getBruteForceEntry uid
        (checkRateLimit ident₂ options (some uid) now'
          ((recordAttempt identifier options false (some uid) now)^[10] s)).2
      = some { userId := uid
               failedAttempts := 10
               lockedUntil := some (now' + options.bruteForce.lockoutDurationMs)
               lastFailedAttempt := now })
    ∧ getBruteForceEntry uid
        (recordAttempt identifier options true (some uid) now' t) = none := by
  have h10 : getBruteForceEntry uid
      ((recordAttempt identifier options false (some uid) now)^[10] s)
      = some { userId := uid
               failedAttempts := 10
               lockedUntil := none
               lastFailedAttempt := now } :=
    recordAttempt_fail_iterate identifier options uid now hen 9 s hnone
  obtain ⟨s10, hgen⟩ : ∃ s10,
      (recordAttempt identifier options false (some uid) now)^[10] s = s10 :=
    ⟨_, rfl⟩
  rw [hgen] at h10
  rw [hgen]
  have hbf : checkBruteForceProtection uid options now' s10
      = (some { allowed := false, remaining := 0
                resetTime := now' + options.bruteForce.lockoutDurationMs
                retryAfter := some options.bruteForce.lockoutDurationMs
                reason := some lockoutReason },
         saveBruteForceEntry uid
           { userId := uid, failedAttempts := 10
             lockedUntil := some (now' + options.bruteForce.lockoutDurationMs)
             lastFailedAttempt := now } s10) := by
    unfold checkBruteForceProtection
    rw [h10]
    simp [hen, hmax]
  have hcheck : checkRateLimit ident₂ options (some uid) now' s10
      = ({ allowed := false, remaining := 0
           resetTime := now' + options.bruteForce.lockoutDurationMs
           retryAfter := some options.bruteForce.lockoutDurationMs
           reason := some lockoutReason },
         saveBruteForceEntry uid
           { userId := uid, failedAttempts := 10
             lockedUntil := some (now' + options.bruteForce.lockoutDurationMs)
             lastFailedAttempt := now } s10) := by
    have hip : checkIPSecurity ident₂ options now' = none := by
      unfold checkIPSecurity
      simp [hw, hb]
    unfold checkRateLimit
    simp [hip, hbf]
  refine ⟨by rw [hcheck], by rw [hcheck], ?_, ?_⟩
  · rw [hcheck]
    unfold getBruteForceEntry saveBruteForceEntry
    exact mapGet_mapSet _ _ _
  · unfold recordAttempt recordRateLimitAttempt recordBruteForceAttempt
      getBruteForceEntry clearBruteForceEntry
    cases hskip : options.skipSuccessfulRequests with
    | true => simp [hen, hreset, hskip, mapGet_mapDelete _ _ hndt]
    | false => simp [hen, hreset, hskip, bruteForceEntries_incrementAttempts,
        mapGet_mapDelete _ _ hndt]

/-- Witness for C9: ten failures for `u1` from the empty store lock the
account out on the next check; one success for the five-failures fixture
clears the counter. -/
theorem brute_force_lockout_witness :
    ((checkRateLimit "*" rlOpts (some "u1") 20000
        ((recordAttempt "1.2.3.4" rlOpts false (some "u1") 10000)^[10]
          rlStore0)).1.allowed = false)
    ∧ ((checkRateLimit "*" rlOpts (some "u1") 20000
        ((recordAttempt "1.2.3.4" rlOpts false (some "u1") 10000)^[10]
          rlStore0)).1.reason = some lockoutReason)
    ∧ (getBruteForceEntry "u1"
        (checkRateLimit "*" rlOpts (some "u1") 20000
          ((recordAttempt "1.2.3.4" rlOpts false (some "u1") 10000)^[10]
            rlStore0)).2
      = some { userId := "u1"
               failedAttempts := 10
               lockedUntil := some (20000 + rlOpts.bruteForce.lockoutDurationMs)
               lastFailedAttempt := 10000 })
    ∧ getBruteForceEntry "u1"
        (recordAttempt "1.2.3.4" rlOpts true (some "u1") 20000 rlStoreBf5)
      = none :=
  brute_force_lockout "1.2.3.4" "*" "u1" rlOpts 10000 20000 rlStore0
    rlStoreBf5 bfEntry5 rfl rfl rfl rfl rfl rfl (by decide) (by decide)
    (by decide)

end JwtAuth
